import Mathlib

/-!
Verification of the simulation core of a small two-player fighting game
(`tekken_like.py`).  The Python source is shallowly embedded: pygame
rectangles become integer rectangles, float scalars become rationals
(all float values occurring in the relevant code paths are produced by
arithmetic the rationals model exactly at the inputs considered),
Python `int()` truncation becomes `pyInt`, and the mutating methods of
`Fighter` and `Game` become pure functions returning the updated state.
-/

namespace TekkenLite

/-! ## Configuration constants (module-level constants of the source) -/

def WIDTH : ℤ := 1000

def HEIGHT : ℤ := 560

def GROUND_Y : ℤ := HEIGHT - 90

def GRAVITY : ℚ := 17/20

def FRICTION : ℚ := 17/20

def MOVE_SPEED : ℚ := 6

def JUMP_SPEED : ℚ := -33/2

def MAX_FALL : ℚ := 18

def PUSHBACK : ℤ := 7

def BLOCK_PUSHBACK : ℤ := 4

def HITSTOP : ℕ := 4

def PUNCH_DMG : ℤ := 8

def KICK_DMG : ℤ := 12

def BLOCK_CHIP : ℚ := 1/5

def ROUND_TIME : ℚ := 60

def BEST_OF : ℕ := 3

/-! ## Helpers -/

/-- Python `int(q)`: truncation toward zero.  On a rational `num/den`
(`den > 0`) this is T-division of the numerator by the denominator. -/
def pyInt (q : ℚ) : ℤ := q.num.tdiv q.den

/-- Source helper `clamp(v, lo, hi) = max(lo, min(hi, v))`. -/
def clamp (v lo hi : ℚ) : ℚ := max lo (min hi v)

/-- Source helper `sign(x)`: -1, 0 or 1. -/
def sign (x : ℤ) : ℤ := if x < 0 then -1 else if x > 0 then 1 else 0

/-- A pygame `Rect`: integer top-left corner plus width and height. -/
structure Rect where
  x : ℤ
  y : ℤ
  w : ℤ
  h : ℤ
deriving Repr, DecidableEq

def Rect.left (r : Rect) : ℤ := r.x

def Rect.right (r : Rect) : ℤ := r.x + r.w

def Rect.top (r : Rect) : ℤ := r.y

def Rect.bottom (r : Rect) : ℤ := r.y + r.h

def Rect.centerx (r : Rect) : ℤ := r.x + r.w / 2

def Rect.centery (r : Rect) : ℤ := r.y + r.h / 2

/-- pygame `Rect.colliderect`: strict overlap on both axes. -/
def Rect.colliderect (a b : Rect) : Bool :=
  decide (a.left < b.right) && decide (b.left < a.right) &&
    decide (a.top < b.bottom) && decide (b.top < a.bottom)

/-- pygame `Rect.clip`: the intersection rectangle (used in the source
only on rectangles that already collide). -/
def Rect.clip (a b : Rect) : Rect :=
  let l := max a.left b.left
  let t := max a.top b.top
  ⟨l, t, min a.right b.right - l, min a.bottom b.bottom - t⟩

lemma Rect.colliderect_iff {a b : Rect} :
    a.colliderect b = true ↔
      a.left < b.right ∧ b.left < a.right ∧ a.top < b.bottom ∧ b.top < a.bottom := by
  simp [Rect.colliderect, and_assoc]

/-! ## Fighter state -/

inductive AttackKind where
  | punch
  | kick
deriving Repr, DecidableEq

/-- The per-tick logical input intents of one player (the source reads
these from the keyboard state through per-player key bindings). -/
structure Inputs where
  left : Bool
  right : Bool
  up : Bool
  down : Bool
  punch : Bool
  kick : Bool
  block : Bool
deriving Repr, DecidableEq

/-- The mutable state of `class Fighter`.  `w`/`h` of the source are the
constant dimensions stored inside `rect`. -/
structure Fighter where
  rect : Rect
  vx : ℚ
  vy : ℚ
  on_ground : Bool
  crouching : Bool
  blocking : Bool
  facing : ℤ
  max_hp : ℤ
  hp : ℚ
  rounds_won : ℕ
  attack_cooldown : ℕ
  attack_type : Option AttackKind
  attack_timer : ℕ
  hitstop : ℕ
  hit_this_attack : Bool
deriving Repr, DecidableEq

/-- Constructor `Fighter.__init__(x, facing, ...)`. -/
def mkFighter (x : ℤ) (facing : ℤ) : Fighter where
  rect := ⟨x, GROUND_Y - 98, 56, 98⟩
  vx := 0
  vy := 0
  on_ground := true
  crouching := false
  blocking := false
  facing := facing
  max_hp := 100
  hp := 100
  rounds_won := 0
  attack_cooldown := 0
  attack_type := none
  attack_timer := 0
  hitstop := 0
  hit_this_attack := false

/-- Method `Fighter.hurtbox`: the body rectangle, shrunk to the bottom half
while crouching on the ground. -/
def Fighter.hurtbox (f : Fighter) : Rect :=
  if f.crouching && f.on_ground then
    ⟨f.rect.x, f.rect.bottom - f.rect.h / 2, f.rect.w, f.rect.h / 2⟩
  else f.rect

/-- Method `Fighter.attack_box`: the active hit rectangle of the current attack,
or `none` outside the active window (or when no attack is running). -/
def Fighter.attack_box (f : Fighter) : Option Rect :=
  match f.attack_type with
  | none => none
  | some k =>
    let aw : ℤ := if k = .punch then 45 else 60
    let ah : ℤ := if k = .punch then 16 else 18
    let startup : ℕ := if k = .punch then 4 else 6
    let active : ℕ := if k = .punch then 5 else 6
    let x := f.hurtbox.centerx + f.facing * (f.rect.w / 2 - 4)
    let y := f.hurtbox.centery - ah / 2
    let hit_rect : Rect := if f.facing > 0 then ⟨x, y, aw, ah⟩ else ⟨x - aw, y, aw, ah⟩
    if f.attack_timer < startup ∨ startup + active ≤ f.attack_timer then none
    else some hit_rect

/-- Method `Fighter.start_attack`: begin a punch or kick unless on cooldown or
in hitstop. -/
def Fighter.start_attack (f : Fighter) (kind : AttackKind) : Fighter :=
  if f.attack_cooldown > 0 || f.hitstop > 0 then f
  else { f with attack_type := some kind, attack_timer := 0,
                attack_cooldown := 0, hit_this_attack := false }

/-- Method `Fighter.apply_gravity`. -/
def Fighter.apply_gravity (f : Fighter) : Fighter :=
  if !f.on_ground then { f with vy := clamp (f.vy + GRAVITY) (-999) MAX_FALL } else f

/-! The body of `Fighter.update` after the hitstop early return, split
into its successive paragraphs.  Composing them in source order gives
`update_core`; the final push-apart also moves the opponent, so the
full `update` returns both fighters. -/

/-- Face the opponent's horizontal center. -/
def Fighter.face_opp (f opp : Fighter) : Fighter :=
  if opp.rect.centerx ≠ f.rect.centerx then
    { f with facing := if opp.rect.centerx > f.rect.centerx then 1 else -1 }
  else f

/-- Derive the blocking and crouching flags from the held intents. -/
def Fighter.stance (f : Fighter) (inp : Inputs) : Fighter :=
  let blocking := inp.block && f.on_ground
  let crouching := inp.down && f.on_ground && !blocking
  { f with blocking := blocking, crouching := crouching }

/-- Horizontal velocity from the held direction keys, with friction
decay (and no walking while blocking). -/
def Fighter.horiz (f : Fighter) (inp : Inputs) : Fighter :=
  if !f.blocking then
    if inp.left && !inp.right then { f with vx := -MOVE_SPEED }
    else if inp.right && !inp.left then { f with vx := MOVE_SPEED }
    else
      let vx := f.vx * FRICTION
      { f with vx := if |vx| < 3/20 then 0 else vx }
  else { f with vx := f.vx * FRICTION }

/-- Jump on the up intent while grounded and not blocking. -/
def Fighter.jump_step (f : Fighter) (inp : Inputs) : Fighter :=
  if inp.up && f.on_ground && !f.blocking then
    { f with vy := JUMP_SPEED, on_ground := false, crouching := false }
  else f

/-- Attack inputs: punch takes priority over kick. -/
def Fighter.attack_input (f : Fighter) (inp : Inputs) : Fighter :=
  if inp.punch then f.start_attack .punch
  else if inp.kick then f.start_attack .kick
  else f

/-- Advance the attack timer; at the move's end frame clear the attack
and set the cooldown. -/
def Fighter.advance_attack (f : Fighter) : Fighter :=
  match f.attack_type with
  | some k =>
    let t := f.attack_timer + 1
    let end_frame : ℕ := if k = .punch then 14 else 18
    if t ≥ end_frame then
      { f with attack_type := none, attack_timer := 0, attack_cooldown := 8 }
    else { f with attack_timer := t }
  | none => f

/-- Cooldown decay. -/
def Fighter.cooldown_decay (f : Fighter) : Fighter :=
  if f.attack_cooldown > 0 then { f with attack_cooldown := f.attack_cooldown - 1 } else f

/-- Position integration: move by velocity, clamp horizontally into the
arena bounds, snap the feet to the ground. -/
def Fighter.integrate (f : Fighter) (bounds : Rect) : Fighter :=
  let x0 := pyInt ((f.rect.x : ℚ) + f.vx)
  let x1 := if x0 < bounds.left then bounds.left else x0
  let x2 := if x1 + f.rect.w > bounds.right then bounds.right - f.rect.w else x1
  let y0 := pyInt ((f.rect.y : ℚ) + f.vy)
  if y0 + f.rect.h ≥ GROUND_Y then
    { f with rect := { f.rect with x := x2, y := GROUND_Y - f.rect.h },
             vy := 0, on_ground := true }
  else
    { f with rect := { f.rect with x := x2, y := y0 } }

/-- The push-apart at the end of `Fighter.update`: when the two body
rectangles overlap and the overlap is narrower than tall, both fighters
are shifted horizontally away from each other by half the overlap width
plus one. -/
def push_apart (f opp : Fighter) : Fighter × Fighter :=
  if f.rect.colliderect opp.rect then
    let overlap := f.rect.clip opp.rect
    if overlap.w < overlap.h then
      let shift := overlap.w / 2 + 1
      if f.rect.centerx < opp.rect.centerx then
        ({ f with rect := { f.rect with x := f.rect.x - shift } },
         { opp with rect := { opp.rect with x := opp.rect.x + shift } })
      else
        ({ f with rect := { f.rect with x := f.rect.x + shift } },
         { opp with rect := { opp.rect with x := opp.rect.x - shift } })
    else (f, opp)
  else (f, opp)

/-- Method `Fighter.update` without the hitstop early return and without the
final push-apart: all the single-fighter paragraphs in source order. -/
def Fighter.update_core (f : Fighter) (inp : Inputs) (opp : Fighter) (bounds : Rect) :
    Fighter :=
  ((((((f.face_opp opp).stance inp).horiz inp).jump_step inp).attack_input
      inp).advance_attack.cooldown_decay.apply_gravity).integrate bounds

/-- Method `Fighter.update(keys, opp, bounds)`.  Returns the new `(self, opp)`
pair, since the push-apart also moves the opponent. -/
def Fighter.update (f : Fighter) (inp : Inputs) (opp : Fighter) (bounds : Rect) :
    Fighter × Fighter :=
  if f.hitstop > 0 then ({ f with hitstop := f.hitstop - 1 }, opp)
  else push_apart (f.update_core inp opp bounds) opp

/-- Method `Fighter.receive_hit(dmg, direction, blocked)`: chip damage when the
block connects, otherwise full damage; clamp health; pushback on the
ground; set hitstop. -/
def Fighter.receive_hit (f : Fighter) (dmg : ℤ) (direction : ℤ) (blocked : Bool) :
    Fighter :=
  let delta : ℤ := if f.blocking && blocked then max 1 (pyInt ((dmg : ℚ) * BLOCK_CHIP)) else dmg
  let push : ℤ := if f.blocking && blocked then BLOCK_PUSHBACK * direction else PUSHBACK * direction
  let hp := clamp (f.hp - (delta : ℚ)) 0 (f.max_hp : ℚ)
  let rect := if f.on_ground then { f.rect with x := f.rect.x + push } else f.rect
  { f with hp := hp, rect := rect, hitstop := HITSTOP }

/-! ## Combat resolver and match controller -/

/-- One direction of the loop in `Game.handle_hits`: if the attacker has
an active box, has not yet hit during this attack, and the box overlaps
the defender's hurtbox, resolve the hit.  The third component records
whether `receive_hit` was invoked. -/
def resolve_pair (atk dfd : Fighter) : Fighter × Fighter × Bool :=
  match atk.attack_box with
  | some box =>
    if !atk.hit_this_attack && box.colliderect dfd.hurtbox then
      let blocked := dfd.blocking
      let dmg := if atk.attack_type = some AttackKind.punch then PUNCH_DMG else KICK_DMG
      ({ atk with hit_this_attack := true, hitstop := HITSTOP },
       dfd.receive_hit dmg (sign atk.facing) blocked, true)
    else (atk, dfd, false)
  | none => (atk, dfd, false)

/-- The arena bounds `Rect(40, 0, WIDTH-80, HEIGHT)` owned by `Game`. -/
def gameBounds : Rect := ⟨40, 0, WIDTH - 80, HEIGHT⟩

/-- The two `Fighter.update` calls of one combat tick, in source order
(`p1.update` may push `p2`, then `p2.update` runs on the moved pair). -/
def update_both (p1 p2 : Fighter) (i1 i2 : Inputs) (bounds : Rect) :
    Fighter × Fighter :=
  let u1 := p1.update i1 p2 bounds
  let u2 := u1.2.update i2 u1.1 bounds
  (u2.2, u2.1)

/-- One full combat tick: both updates then `handle_hits` (both
directions).  The boolean records whether player 1's attack landed on
player 2 during this tick. -/
def combat_tick (p1 p2 : Fighter) (i1 i2 : Inputs) (bounds : Rect) :
    Fighter × Fighter × Bool :=
  let u := update_both p1 p2 i1 i2 bounds
  let r1 := resolve_pair u.1 u.2
  let r2 := resolve_pair r1.2.1 r1.1
  (r2.2.1, r2.1, r1.2.2)

/-- Iterate combat ticks over a list of input pairs, counting the ticks
on which player 1's attack landed on player 2. -/
def run_ticks (p1 p2 : Fighter) : List (Inputs × Inputs) → Fighter × Fighter × ℕ
  | [] => (p1, p2, 0)
  | i :: rest =>
    let t := combat_tick p1 p2 i.1 i.2 gameBounds
    let r := run_ticks t.1 t.2.1 rest
    (r.1, r.2.1, (if t.2.2 then 1 else 0) + r.2.2)

inductive Player where
  | p1
  | p2
deriving Repr, DecidableEq

/-- The match controller state (`class Game`). -/
structure Game where
  p1 : Fighter
  p2 : Fighter
  round_time : ℚ
  freeze_timer : ℤ
  match_end : Bool
deriving Repr, DecidableEq

/-- Method `Game.round_over(winner_name)`: credit the winner, then either end
the match or reset for a new round. -/
def Game.round_over (g : Game) (winner : Option Player) : Game :=
  let g : Game :=
    match winner with
    | some .p1 => { g with p1 := { g.p1 with rounds_won := g.p1.rounds_won + 1 } }
    | some .p2 => { g with p2 := { g.p2 with rounds_won := g.p2.rounds_won + 1 } }
    | none => g
  let needed := BEST_OF / 2 + 1
  if g.p1.rounds_won ≥ needed ∨ g.p2.rounds_won ≥ needed then
    { g with freeze_timer := 120, round_time := 0, match_end := true }
  else
    let rect1 : Rect := { g.p1.rect with x := 200, y := GROUND_Y - g.p1.rect.h }
    let rect2 : Rect :=
      { g.p2.rect with x := (WIDTH - 200) - g.p2.rect.w, y := GROUND_Y - g.p2.rect.h }
    { g with
      p1 := { g.p1 with hp := (g.p1.max_hp : ℚ), rect := rect1, vx := 0, vy := 0,
                        attack_type := none },
      p2 := { g.p2 with hp := (g.p2.max_hp : ℚ), rect := rect2, vx := 0, vy := 0,
                        attack_type := none },
      freeze_timer := 60, round_time := ROUND_TIME, match_end := false }

/-- The round-termination portion of `Game.update`, executed right after
the fighter updates and hit resolution of a combat tick: decrement the
clock by `dt`, resolve a timeout by comparing health, then run the KO
checks (player 1 first, `elif` player 2). -/
def Game.resolve_round_end (g : Game) (dt : ℚ) : Game :=
  let g : Game := { g with round_time := g.round_time - dt }
  let g : Game :=
    if g.round_time ≤ 0 then
      if g.p1.hp > g.p2.hp then g.round_over (some .p1)
      else if g.p2.hp > g.p1.hp then g.round_over (some .p2)
      else g.round_over none
    else g
  if g.p1.hp ≤ 0 then g.round_over (some .p2)
  else if g.p2.hp ≤ 0 then g.round_over (some .p1)
  else g

/-! ## Total move durations (frame counts used by `advance_attack`) -/

def move_duration : AttackKind → ℕ
  | .punch => 14
  | .kick => 18

/-! ## Field-preservation lemmas for the update phases -/

lemma pyInt_eq_floor (q : ℚ) (h : 0 ≤ q) : pyInt q = ⌊q⌋ := by
  rw [Rat.floor_def, pyInt, Int.tdiv_eq_ediv (Rat.num_nonneg.mpr h) (by positivity)]

@[simp] lemma face_opp_attack_type (f opp : Fighter) :
    (f.face_opp opp).attack_type = f.attack_type := by
  unfold Fighter.face_opp; split <;> rfl

@[simp] lemma face_opp_attack_timer (f opp : Fighter) :
    (f.face_opp opp).attack_timer = f.attack_timer := by
  unfold Fighter.face_opp; split <;> rfl

@[simp] lemma face_opp_attack_cooldown (f opp : Fighter) :
    (f.face_opp opp).attack_cooldown = f.attack_cooldown := by
  unfold Fighter.face_opp; split <;> rfl

@[simp] lemma face_opp_hit_flag (f opp : Fighter) :
    (f.face_opp opp).hit_this_attack = f.hit_this_attack := by
  unfold Fighter.face_opp; split <;> rfl

@[simp] lemma face_opp_rect (f opp : Fighter) : (f.face_opp opp).rect = f.rect := by
  unfold Fighter.face_opp; split <;> rfl

@[simp] lemma face_opp_hitstop (f opp : Fighter) : (f.face_opp opp).hitstop = f.hitstop := by
  unfold Fighter.face_opp; split <;> rfl

@[simp] lemma stance_attack_type (f : Fighter) (inp : Inputs) :
    (f.stance inp).attack_type = f.attack_type := rfl

@[simp] lemma stance_attack_timer (f : Fighter) (inp : Inputs) :
    (f.stance inp).attack_timer = f.attack_timer := rfl

@[simp] lemma stance_attack_cooldown (f : Fighter) (inp : Inputs) :
    (f.stance inp).attack_cooldown = f.attack_cooldown := rfl

@[simp] lemma stance_hit_flag (f : Fighter) (inp : Inputs) :
    (f.stance inp).hit_this_attack = f.hit_this_attack := rfl

@[simp] lemma stance_rect (f : Fighter) (inp : Inputs) : (f.stance inp).rect = f.rect := rfl

@[simp] lemma stance_hitstop (f : Fighter) (inp : Inputs) :
    (f.stance inp).hitstop = f.hitstop := rfl

@[simp] lemma horiz_attack_type (f : Fighter) (inp : Inputs) :
    (f.horiz inp).attack_type = f.attack_type := by
  unfold Fighter.horiz; dsimp only; (repeat' split) <;> rfl

@[simp] lemma horiz_attack_timer (f : Fighter) (inp : Inputs) :
    (f.horiz inp).attack_timer = f.attack_timer := by
  unfold Fighter.horiz; dsimp only; (repeat' split) <;> rfl

@[simp] lemma horiz_attack_cooldown (f : Fighter) (inp : Inputs) :
    (f.horiz inp).attack_cooldown = f.attack_cooldown := by
  unfold Fighter.horiz; dsimp only; (repeat' split) <;> rfl

@[simp] lemma horiz_hit_flag (f : Fighter) (inp : Inputs) :
    (f.horiz inp).hit_this_attack = f.hit_this_attack := by
  unfold Fighter.horiz; dsimp only; (repeat' split) <;> rfl

@[simp] lemma horiz_rect (f : Fighter) (inp : Inputs) : (f.horiz inp).rect = f.rect := by
  unfold Fighter.horiz; dsimp only; (repeat' split) <;> rfl

@[simp] lemma horiz_hitstop (f : Fighter) (inp : Inputs) :
    (f.horiz inp).hitstop = f.hitstop := by
  unfold Fighter.horiz; dsimp only; (repeat' split) <;> rfl

@[simp] lemma jump_step_attack_type (f : Fighter) (inp : Inputs) :
    (f.jump_step inp).attack_type = f.attack_type := by
  unfold Fighter.jump_step; split <;> rfl

@[simp] lemma jump_step_attack_timer (f : Fighter) (inp : Inputs) :
    (f.jump_step inp).attack_timer = f.attack_timer := by
  unfold Fighter.jump_step; split <;> rfl

@[simp] lemma jump_step_attack_cooldown (f : Fighter) (inp : Inputs) :
    (f.jump_step inp).attack_cooldown = f.attack_cooldown := by
  unfold Fighter.jump_step; split <;> rfl

@[simp] lemma jump_step_hit_flag (f : Fighter) (inp : Inputs) :
    (f.jump_step inp).hit_this_attack = f.hit_this_attack := by
  unfold Fighter.jump_step; split <;> rfl

@[simp] lemma jump_step_rect (f : Fighter) (inp : Inputs) :
    (f.jump_step inp).rect = f.rect := by
  unfold Fighter.jump_step; split <;> rfl

@[simp] lemma jump_step_hitstop (f : Fighter) (inp : Inputs) :
    (f.jump_step inp).hitstop = f.hitstop := by
  unfold Fighter.jump_step; split <;> rfl

lemma attack_input_no_press (f : Fighter) (inp : Inputs)
    (hpunch : inp.punch = false) (hkick : inp.kick = false) :
    f.attack_input inp = f := by
  unfold Fighter.attack_input; rw [hpunch, hkick]; rfl

@[simp] lemma attack_input_rect (f : Fighter) (inp : Inputs) :
    (f.attack_input inp).rect = f.rect := by
  unfold Fighter.attack_input Fighter.start_attack
  (repeat' split) <;> rfl

@[simp] lemma attack_input_hitstop (f : Fighter) (inp : Inputs) :
    (f.attack_input inp).hitstop = f.hitstop := by
  unfold Fighter.attack_input Fighter.start_attack
  (repeat' split) <;> rfl

@[simp] lemma advance_attack_hit_flag (f : Fighter) :
    f.advance_attack.hit_this_attack = f.hit_this_attack := by
  unfold Fighter.advance_attack; dsimp only; (repeat' split) <;> rfl

@[simp] lemma advance_attack_rect (f : Fighter) : f.advance_attack.rect = f.rect := by
  unfold Fighter.advance_attack; dsimp only; (repeat' split) <;> rfl

@[simp] lemma advance_attack_hitstop (f : Fighter) :
    f.advance_attack.hitstop = f.hitstop := by
  unfold Fighter.advance_attack; dsimp only; (repeat' split) <;> rfl

@[simp] lemma cooldown_decay_attack_type (f : Fighter) :
    f.cooldown_decay.attack_type = f.attack_type := by
  unfold Fighter.cooldown_decay; split <;> rfl

@[simp] lemma cooldown_decay_attack_timer (f : Fighter) :
    f.cooldown_decay.attack_timer = f.attack_timer := by
  unfold Fighter.cooldown_decay; split <;> rfl

@[simp] lemma cooldown_decay_hit_flag (f : Fighter) :
    f.cooldown_decay.hit_this_attack = f.hit_this_attack := by
  unfold Fighter.cooldown_decay; split <;> rfl

@[simp] lemma cooldown_decay_rect (f : Fighter) : f.cooldown_decay.rect = f.rect := by
  unfold Fighter.cooldown_decay; split <;> rfl

@[simp] lemma cooldown_decay_hitstop (f : Fighter) :
    f.cooldown_decay.hitstop = f.hitstop := by
  unfold Fighter.cooldown_decay; split <;> rfl

@[simp] lemma apply_gravity_attack_type (f : Fighter) :
    f.apply_gravity.attack_type = f.attack_type := by
  unfold Fighter.apply_gravity; split <;> rfl

@[simp] lemma apply_gravity_attack_timer (f : Fighter) :
    f.apply_gravity.attack_timer = f.attack_timer := by
  unfold Fighter.apply_gravity; split <;> rfl

@[simp] lemma apply_gravity_attack_cooldown (f : Fighter) :
    f.apply_gravity.attack_cooldown = f.attack_cooldown := by
  unfold Fighter.apply_gravity; split <;> rfl

@[simp] lemma apply_gravity_hit_flag (f : Fighter) :
    f.apply_gravity.hit_this_attack = f.hit_this_attack := by
  unfold Fighter.apply_gravity; split <;> rfl

@[simp] lemma apply_gravity_rect (f : Fighter) : f.apply_gravity.rect = f.rect := by
  unfold Fighter.apply_gravity; split <;> rfl

@[simp] lemma apply_gravity_hitstop (f : Fighter) :
    f.apply_gravity.hitstop = f.hitstop := by
  unfold Fighter.apply_gravity; split <;> rfl

@[simp] lemma integrate_attack_type (f : Fighter) (bounds : Rect) :
    (f.integrate bounds).attack_type = f.attack_type := by
  unfold Fighter.integrate; dsimp only; (repeat' split) <;> rfl

@[simp] lemma integrate_attack_timer (f : Fighter) (bounds : Rect) :
    (f.integrate bounds).attack_timer = f.attack_timer := by
  unfold Fighter.integrate; dsimp only; (repeat' split) <;> rfl

@[simp] lemma integrate_attack_cooldown (f : Fighter) (bounds : Rect) :
    (f.integrate bounds).attack_cooldown = f.attack_cooldown := by
  unfold Fighter.integrate; dsimp only; (repeat' split) <;> rfl

@[simp] lemma integrate_hit_flag (f : Fighter) (bounds : Rect) :
    (f.integrate bounds).hit_this_attack = f.hit_this_attack := by
  unfold Fighter.integrate; dsimp only; (repeat' split) <;> rfl

@[simp] lemma integrate_hitstop (f : Fighter) (bounds : Rect) :
    (f.integrate bounds).hitstop = f.hitstop := by
  unfold Fighter.integrate; dsimp only; (repeat' split) <;> rfl

@[simp] lemma push_apart_fst_attack_type (f opp : Fighter) :
    (push_apart f opp).1.attack_type = f.attack_type := by
  unfold push_apart; dsimp only; (repeat' split) <;> rfl

@[simp] lemma push_apart_fst_attack_timer (f opp : Fighter) :
    (push_apart f opp).1.attack_timer = f.attack_timer := by
  unfold push_apart; dsimp only; (repeat' split) <;> rfl

@[simp] lemma push_apart_fst_attack_cooldown (f opp : Fighter) :
    (push_apart f opp).1.attack_cooldown = f.attack_cooldown := by
  unfold push_apart; dsimp only; (repeat' split) <;> rfl

@[simp] lemma push_apart_fst_hit_flag (f opp : Fighter) :
    (push_apart f opp).1.hit_this_attack = f.hit_this_attack := by
  unfold push_apart; dsimp only; (repeat' split) <;> rfl

@[simp] lemma push_apart_snd_hit_flag (f opp : Fighter) :
    (push_apart f opp).2.hit_this_attack = opp.hit_this_attack := by
  unfold push_apart; dsimp only; (repeat' split) <;> rfl

@[simp] lemma push_apart_fst_rect_y (f opp : Fighter) :
    (push_apart f opp).1.rect.y = f.rect.y := by
  unfold push_apart; dsimp only; (repeat' split) <;> rfl

@[simp] lemma push_apart_snd_rect_y (f opp : Fighter) :
    (push_apart f opp).2.rect.y = opp.rect.y := by
  unfold push_apart; dsimp only; (repeat' split) <;> rfl

@[simp] lemma receive_hit_hit_flag (f : Fighter) (dmg direction : ℤ) (blocked : Bool) :
    (f.receive_hit dmg direction blocked).hit_this_attack = f.hit_this_attack := rfl

@[simp] lemma receive_hit_rect_y (f : Fighter) (dmg direction : ℤ) (blocked : Bool) :
    (f.receive_hit dmg direction blocked).rect.y = f.rect.y := by
  unfold Fighter.receive_hit
  dsimp only
  (repeat' split) <;> rfl

@[simp] lemma update_snd_hit_flag (f : Fighter) (inp : Inputs) (opp : Fighter)
    (bounds : Rect) : (f.update inp opp bounds).2.hit_this_attack = opp.hit_this_attack := by
  unfold Fighter.update; split <;> simp

lemma update_fst_hit_flag (f : Fighter) (inp : Inputs) (opp : Fighter) (bounds : Rect)
    (hpunch : inp.punch = false) (hkick : inp.kick = false) :
    (f.update inp opp bounds).1.hit_this_attack = f.hit_this_attack := by
  unfold Fighter.update Fighter.update_core
  split
  · rfl
  · simp [attack_input_no_press _ _ hpunch hkick]

/-! ## Claim C1: attack boxes exist exactly inside the active window -/

/-- C1.  `attack_box()` returns a rectangle if and only if an attack is
active and `attack_timer` lies in that kind's active window — Punch
ticks [4, 9), Kick ticks [6, 12); in startup, in recovery, and with no
attack set it returns `none`. -/
theorem attack_box_iff_active_window (f : Fighter) :
    (∃ r, f.attack_box = some r) ↔
      (f.attack_type = some AttackKind.punch ∧ 4 ≤ f.attack_timer ∧ f.attack_timer < 9) ∨
      (f.attack_type = some AttackKind.kick ∧ 6 ≤ f.attack_timer ∧ f.attack_timer < 12) := by
  cases hk : f.attack_type with
  | none => simp [Fighter.attack_box, hk]
  | some k =>
    cases k
    · simp only [Fighter.attack_box, hk]
      split
      · simp_all
        all_goals omega
      · simp_all
        all_goals omega
    · simp only [Fighter.attack_box, hk]
      split
      · simp_all
        all_goals omega
      · simp_all
        all_goals omega

/-! ## Claim C2: blocked hits deal max(1, floor(damage/5)), others full -/

/-- C2.  `receive_hit(dmg, direction, blocked)` subtracts, before the
final clamp into [0, max_hp], exactly `max 1 ⌊dmg * 0.2⌋` when the
defender is blocking and the hit is flagged blocked, and the full `dmg`
otherwise; the chip values for the Kick (12) and Punch (8) damages are
2 and 1. -/
theorem receive_hit_damage_amount (f : Fighter) (dmg direction : ℤ) (blocked : Bool)
    (hd : 0 < dmg) :
    (f.receive_hit dmg direction blocked).hp =
      clamp (f.hp -
        (((if f.blocking && blocked then max 1 ⌊(dmg : ℚ) * (2/10)⌋ else dmg) : ℤ) : ℚ))
        0 (f.max_hp : ℚ) ∧
    max 1 ⌊(12 : ℚ) * (2/10)⌋ = 2 ∧ max 1 ⌊(8 : ℚ) * (2/10)⌋ = 1 := by
  refine ⟨?_, by norm_num, by norm_num⟩
  have key : pyInt ((dmg : ℚ) * BLOCK_CHIP) = ⌊(dmg : ℚ) * (2/10)⌋ := by
    have h0 : (0 : ℚ) ≤ (dmg : ℚ) * BLOCK_CHIP := by
      have : (0 : ℚ) ≤ (dmg : ℚ) := by exact_mod_cast hd.le
      unfold BLOCK_CHIP
      positivity
    rw [pyInt_eq_floor _ h0]
    norm_num [BLOCK_CHIP]
  unfold Fighter.receive_hit
  dsimp only
  rw [key]

/-- Witness for C2 at a blocking defender hit by a blocked Kick. -/
theorem receive_hit_damage_amount_witness :
    (0 : ℤ) < 12 ∧
      (({ mkFighter 200 1 with blocking := true } : Fighter).receive_hit 12 1 true).hp =
        clamp (({ mkFighter 200 1 with blocking := true } : Fighter).hp -
          (((if ({ mkFighter 200 1 with blocking := true } : Fighter).blocking && true then
              max 1 ⌊((12 : ℤ) : ℚ) * (2/10)⌋ else 12) : ℤ) : ℚ))
          0 (({ mkFighter 200 1 with blocking := true } : Fighter).max_hp : ℚ) ∧
      max 1 ⌊(12 : ℚ) * (2/10)⌋ = 2 ∧ max 1 ⌊(8 : ℚ) * (2/10)⌋ = 1 :=
  ⟨by decide,
   receive_hit_damage_amount { mkFighter 200 1 with blocking := true } 12 1 true (by decide)⟩

/-! ## Claim C3: health stays in [0, max_hp] after every receive_hit -/

/-- C3.  After any `receive_hit` call, health lies within
[0, max_hp]: it neither goes negative on a KO hit nor exceeds the
maximum.  Since this holds for a call from any prior state, it holds
after each call of any sequence of calls. -/
theorem receive_hit_health_in_range (f : Fighter) (dmg direction : ℤ) (blocked : Bool)
    (hmax : 0 ≤ f.max_hp) :
    0 ≤ (f.receive_hit dmg direction blocked).hp ∧
      (f.receive_hit dmg direction blocked).hp ≤ (f.max_hp : ℚ) := by
  unfold Fighter.receive_hit
  dsimp only
  unfold clamp
  refine ⟨le_max_left _ _, max_le ?_ (min_le_left _ _)⟩
  exact_mod_cast hmax

/-- Witness for C3 at a KO-sized hit. -/
theorem receive_hit_health_in_range_witness :
    0 ≤ (mkFighter 200 1).max_hp ∧
      (0 ≤ ((mkFighter 200 1).receive_hit 500 1 false).hp ∧
        ((mkFighter 200 1).receive_hit 500 1 false).hp ≤ ((mkFighter 200 1).max_hp : ℚ)) :=
  ⟨by decide, receive_hit_health_in_range (mkFighter 200 1) 500 1 false (by decide)⟩

/-! ## Claim C4: the claimed arena-bounds invariant (corrected) -/

/-- C4 counterexample.  A fighter standing exactly at the arena's left
bound, pushed left by `receive_hit`, ends with its rectangle outside the
horizontal bounds: the pushback is applied without any clamping. -/
theorem receive_hit_pushback_exits_bounds :
    gameBounds.left ≤ (mkFighter 40 1).rect.left ∧
      (mkFighter 40 1).rect.right ≤ gameBounds.right ∧
      ((mkFighter 40 1).receive_hit 8 (-1) false).rect.left < gameBounds.left := by
  with_unfolding_all decide

lemma integrate_bounds (g : Fighter) (bounds : Rect) (hw : g.rect.w ≤ bounds.w) :
    bounds.left ≤ (g.integrate bounds).rect.left ∧
      (g.integrate bounds).rect.right ≤ bounds.right ∧
      (g.integrate bounds).rect.bottom ≤ GROUND_Y := by
  unfold Fighter.integrate Rect.left Rect.right Rect.bottom at *
  dsimp only
  (repeat' split) <;> dsimp only <;> omega

/-- C4 amended.  The integration step of `update` does keep the
rectangle inside the horizontal bounds (when the rectangle is no wider
than the bounds) and the feet at or above ground level; the push-apart
resolution and the `receive_hit` pushback only ever move the rectangle
horizontally, so the feet never sink below ground, but those two
operations perform no horizontal clamping, so the rectangle can exit
the horizontal bounds. -/
theorem motion_bounds_and_ground (f : Fighter) (inp : Inputs) (opp : Fighter)
    (bounds : Rect) (dmg direction : ℤ) (blocked : Bool)
    (hw : f.rect.w ≤ bounds.w) :
    (bounds.left ≤ (f.update_core inp opp bounds).rect.left ∧
      (f.update_core inp opp bounds).rect.right ≤ bounds.right ∧
      (f.update_core inp opp bounds).rect.bottom ≤ GROUND_Y) ∧
    (f.receive_hit dmg direction blocked).rect.y = f.rect.y ∧
    (push_apart f opp).1.rect.y = f.rect.y ∧
    (push_apart f opp).2.rect.y = opp.rect.y := by
  refine ⟨?_, receive_hit_rect_y f dmg direction blocked,
    push_apart_fst_rect_y f opp, push_apart_snd_rect_y f opp⟩
  have h1 :=
    integrate_bounds
      ((((((f.face_opp opp).stance inp).horiz inp).jump_step inp).attack_input
          inp).advance_attack.cooldown_decay.apply_gravity) bounds (by simpa using hw)
  simpa [Fighter.update_core] using h1

/-- Witness for C4's amended theorem at a concrete moving fighter. -/
theorem motion_bounds_and_ground_witness :
    (mkFighter 940 1).rect.w ≤ gameBounds.w ∧
      ((gameBounds.left ≤
          ((mkFighter 940 1).update_core ⟨false, true, false, false, false, false, false⟩
            (mkFighter 200 (-1)) gameBounds).rect.left ∧
        ((mkFighter 940 1).update_core ⟨false, true, false, false, false, false, false⟩
            (mkFighter 200 (-1)) gameBounds).rect.right ≤ gameBounds.right ∧
        ((mkFighter 940 1).update_core ⟨false, true, false, false, false, false, false⟩
            (mkFighter 200 (-1)) gameBounds).rect.bottom ≤ GROUND_Y) ∧
      ((mkFighter 940 1).receive_hit 8 1 false).rect.y = (mkFighter 940 1).rect.y ∧
      (push_apart (mkFighter 940 1) (mkFighter 200 (-1))).1.rect.y =
        (mkFighter 940 1).rect.y ∧
      (push_apart (mkFighter 940 1) (mkFighter 200 (-1))).2.rect.y =
        (mkFighter 200 (-1)).rect.y) :=
  ⟨by decide,
   motion_bounds_and_ground (mkFighter 940 1) ⟨false, true, false, false, false, false, false⟩
     (mkFighter 200 (-1)) gameBounds 8 1 false (by decide)⟩

/-! ## Claim C5: attack timer progression (corrected) -/

/-- The all-false input snapshot (no key held). -/
def noInputs : Inputs := ⟨false, false, false, false, false, false, false⟩

def c5Fighter : Fighter :=
  { mkFighter 200 1 with attack_type := some .punch, attack_timer := 5 }

def c5Inputs : Inputs := ⟨false, false, false, false, true, false, false⟩

/-- C5 counterexample.  Pressing punch mid-punch re-triggers
`start_attack` (the cooldown is 0 during a move), so with the same
attack kind still set, `attack_timer` drops from 5 back to 1 in one
non-frozen tick: the timer is not monotone while `attack_type` stays
set. -/
theorem attack_timer_reset_by_retrigger :
    c5Fighter.attack_type = some AttackKind.punch ∧ c5Fighter.hitstop = 0 ∧
      (c5Fighter.update c5Inputs (mkFighter 700 (-1)) gameBounds).1.attack_type =
        some AttackKind.punch ∧
      (c5Fighter.update c5Inputs (mkFighter 700 (-1)) gameBounds).1.attack_timer <
        c5Fighter.attack_timer := by
  with_unfolding_all decide

lemma cooldown_decay_cooldown (f : Fighter) :
    f.cooldown_decay.attack_cooldown = f.attack_cooldown - 1 := by
  unfold Fighter.cooldown_decay
  split
  · rfl
  · omega

lemma advance_attack_spec (g : Fighter) (k : AttackKind) (hk : g.attack_type = some k) :
    (g.attack_timer + 1 < move_duration k →
      g.advance_attack.attack_type = some k ∧
      g.advance_attack.attack_timer = g.attack_timer + 1) ∧
    (move_duration k ≤ g.attack_timer + 1 →
      g.advance_attack.attack_type = none ∧ g.advance_attack.attack_timer = 0 ∧
      g.advance_attack.attack_cooldown = 8) := by
  have hend : (if k = AttackKind.punch then (14 : ℕ) else 18) = move_duration k := by
    cases k <;> simp [move_duration]
  unfold Fighter.advance_attack
  rw [hk]
  dsimp only
  rw [hend]
  refine ⟨fun hlt => ?_, fun hge => ?_⟩
  · rw [if_neg (by omega)]; exact ⟨rfl, rfl⟩
  · rw [if_pos (by omega)]; exact ⟨rfl, rfl, rfl⟩

/-- C5 amended.  While an attack is set and the fighter is not in
hitstop, a tick on which neither attack input is pressed advances
`attack_timer` by exactly one; when the incremented timer reaches the
move's total duration (Punch 14, Kick 18) the attack clears, the timer
resets to 0, and the cooldown is set to 8 and immediately decremented
to 7 within the same tick.  (The monotonicity claimed for ticks with an
attack input held is refuted separately: `start_attack` re-fires and
resets the timer.) -/
theorem attack_timer_progression (f : Fighter) (inp : Inputs) (opp : Fighter)
    (bounds : Rect) (k : AttackKind) (hstop : f.hitstop = 0)
    (hk : f.attack_type = some k) (hpunch : inp.punch = false) (hkick : inp.kick = false) :
    (f.attack_timer + 1 < move_duration k →
      (f.update inp opp bounds).1.attack_type = some k ∧
      (f.update inp opp bounds).1.attack_timer = f.attack_timer + 1) ∧
    (move_duration k ≤ f.attack_timer + 1 →
      (f.update inp opp bounds).1.attack_type = none ∧
      (f.update inp opp bounds).1.attack_timer = 0 ∧
      (f.update inp opp bounds).1.attack_cooldown = 7) := by
  unfold Fighter.update
  rw [if_neg (by omega)]
  unfold Fighter.update_core
  rw [attack_input_no_press _ _ hpunch hkick]
  set g := ((((f.face_opp opp).stance inp).horiz inp).jump_step inp) with hg
  have hgk : g.attack_type = some k := by simp [hg, hk]
  have hgt : g.attack_timer = f.attack_timer := by simp [hg]
  have hspec := advance_attack_spec g k hgk
  rw [hgt] at hspec
  simp only [push_apart_fst_attack_type, push_apart_fst_attack_timer,
    push_apart_fst_attack_cooldown, integrate_attack_type, integrate_attack_timer,
    integrate_attack_cooldown, apply_gravity_attack_type, apply_gravity_attack_timer,
    apply_gravity_attack_cooldown, cooldown_decay_attack_type, cooldown_decay_attack_timer,
    cooldown_decay_cooldown]
  refine ⟨fun hlt => (hspec.1 hlt).imp id id, fun hge => ?_⟩
  obtain ⟨h1, h2, h3⟩ := hspec.2 hge
  exact ⟨h1, h2, by rw [h3]⟩

def c5wFighter : Fighter :=
  { mkFighter 200 1 with attack_type := some .punch, attack_timer := 3 }

/-- Witness for C5's amended theorem: one mid-move tick of a punch. -/
theorem attack_timer_progression_witness :
    (c5wFighter.hitstop = 0 ∧ c5wFighter.attack_timer + 1 < move_duration .punch) ∧
      ((c5wFighter.update noInputs (mkFighter 700 (-1)) gameBounds).1.attack_type =
          some AttackKind.punch ∧
        (c5wFighter.update noInputs (mkFighter 700 (-1)) gameBounds).1.attack_timer =
          c5wFighter.attack_timer + 1) :=
  ⟨⟨rfl, by decide⟩,
   (attack_timer_progression c5wFighter noInputs (mkFighter 700 (-1)) gameBounds
      AttackKind.punch rfl rfl rfl rfl).1 (by decide)⟩

/-! ## Claim C6: at most one hit per attack instance -/

lemma resolve_pair_flag_true (atk dfd : Fighter) (h : atk.hit_this_attack = true) :
    resolve_pair atk dfd = (atk, dfd, false) := by
  unfold resolve_pair
  cases atk.attack_box <;> simp [h]

lemma resolve_pair_hit_flag (atk dfd : Fighter) :
    (resolve_pair atk dfd).2.2 = true → (resolve_pair atk dfd).1.hit_this_attack = true := by
  unfold resolve_pair
  cases atk.attack_box with
  | none => simp
  | some box =>
    dsimp only
    split <;> simp_all

lemma resolve_pair_no_hit (atk dfd : Fighter) :
    (resolve_pair atk dfd).2.2 = false → (resolve_pair atk dfd).1 = atk := by
  unfold resolve_pair
  cases atk.attack_box with
  | none => simp
  | some box =>
    dsimp only
    split <;> simp_all

lemma resolve_pair_dfd_flag (atk dfd : Fighter) :
    (resolve_pair atk dfd).2.1.hit_this_attack = dfd.hit_this_attack := by
  unfold resolve_pair
  cases atk.attack_box with
  | none => rfl
  | some box =>
    dsimp only
    split
    · exact receive_hit_hit_flag _ _ _ _
    · rfl

lemma update_both_fst_flag (p1 p2 : Fighter) (i1 i2 : Inputs) (b : Rect)
    (hp : i1.punch = false) (hk : i1.kick = false) :
    (update_both p1 p2 i1 i2 b).1.hit_this_attack = p1.hit_this_attack := by
  unfold update_both
  dsimp only
  rw [update_snd_hit_flag, update_fst_hit_flag _ _ _ _ hp hk]

lemma combat_tick_flag (p1 p2 : Fighter) (i1 i2 : Inputs) (b : Rect)
    (hp : i1.punch = false) (hk : i1.kick = false) :
    ((combat_tick p1 p2 i1 i2 b).2.2 = false →
      (combat_tick p1 p2 i1 i2 b).1.hit_this_attack = p1.hit_this_attack) ∧
    ((combat_tick p1 p2 i1 i2 b).2.2 = true →
      (combat_tick p1 p2 i1 i2 b).1.hit_this_attack = true) := by
  unfold combat_tick
  dsimp only
  constructor
  · intro hfalse
    rw [resolve_pair_dfd_flag, resolve_pair_no_hit _ _ hfalse,
      update_both_fst_flag _ _ _ _ _ hp hk]
  · intro htrue
    rw [resolve_pair_dfd_flag, resolve_pair_hit_flag _ _ htrue]

lemma combat_tick_flag_stays (p1 p2 : Fighter) (i1 i2 : Inputs) (b : Rect)
    (hp : i1.punch = false) (hk : i1.kick = false) (hflag : p1.hit_this_attack = true) :
    (combat_tick p1 p2 i1 i2 b).2.2 = false ∧
      (combat_tick p1 p2 i1 i2 b).1.hit_this_attack = true := by
  have hu : (update_both p1 p2 i1 i2 b).1.hit_this_attack = true := by
    rw [update_both_fst_flag _ _ _ _ _ hp hk]; exact hflag
  unfold combat_tick
  dsimp only
  rw [resolve_pair_flag_true _ _ hu]
  dsimp only
  exact ⟨rfl, by rw [resolve_pair_dfd_flag]; exact hu⟩

lemma run_ticks_zero_of_flag (l : List (Inputs × Inputs)) (p1 p2 : Fighter)
    (hin : ∀ i ∈ l, i.1.punch = false ∧ i.1.kick = false)
    (hflag : p1.hit_this_attack = true) :
    (run_ticks p1 p2 l).2.2 = 0 := by
  induction l generalizing p1 p2 with
  | nil => rfl
  | cons i rest ih =>
    have hi := hin i (List.mem_cons_self _ _)
    have ht := combat_tick_flag_stays p1 p2 i.1 i.2 gameBounds hi.1 hi.2 hflag
    unfold run_ticks
    dsimp only
    rw [ht.1, ih _ _ (fun j hj => hin j (List.mem_cons_of_mem _ hj)) ht.2]
    simp

/-- C6.  Across any run of combat ticks during which the attacker
(player 1) presses no attack input — so that `start_attack` does not
re-fire and begin a new attack instance — the combat resolver invokes
the defender's `receive_hit` for player 1's attack at most once:
`hit_this_attack` is cleared only by `start_attack`, set on the first
registered hit, and suppresses any further hit. -/
theorem at_most_one_hit_per_attack (p1 p2 : Fighter) (l : List (Inputs × Inputs))
    (hin : ∀ i ∈ l, i.1.punch = false ∧ i.1.kick = false) :
    (run_ticks p1 p2 l).2.2 ≤ 1 := by
  induction l generalizing p1 p2 with
  | nil => exact Nat.zero_le 1
  | cons i rest ih =>
    have hi := hin i (List.mem_cons_self _ _)
    have hrest : ∀ j ∈ rest, j.1.punch = false ∧ j.1.kick = false :=
      fun j hj => hin j (List.mem_cons_of_mem _ hj)
    unfold run_ticks
    dsimp only
    cases hhit : (combat_tick p1 p2 i.1 i.2 gameBounds).2.2 with
    | false =>
      simpa using ih _ _ hrest
    | true =>
      have hflag := (combat_tick_flag p1 p2 i.1 i.2 gameBounds hi.1 hi.2).2 hhit
      have hz :=
        run_ticks_zero_of_flag rest (combat_tick p1 p2 i.1 i.2 gameBounds).1
          (combat_tick p1 p2 i.1 i.2 gameBounds).2.1 hrest hflag
      simp [hz]

/-- Witness for C6 over two concrete no-attack-input ticks. -/
theorem at_most_one_hit_per_attack_witness :
    (∀ i ∈ [((noInputs, noInputs) : Inputs × Inputs), (noInputs, noInputs)],
        i.1.punch = false ∧ i.1.kick = false) ∧
      (run_ticks (mkFighter 200 1) (mkFighter 744 (-1))
          [(noInputs, noInputs), (noInputs, noInputs)]).2.2 ≤ 1 :=
  ⟨by decide, at_most_one_hit_per_attack _ _ _ (by decide)⟩

/-! ## Claim C7: push-apart separation (corrected) -/

lemma Rect.colliderect_eq_false_iff {a b : Rect} :
    a.colliderect b = false ↔
      ¬ (a.left < b.right ∧ b.left < a.right ∧ a.top < b.bottom ∧ b.top < a.bottom) := by
  rw [Bool.eq_false_iff, Ne, Rect.colliderect_iff]

@[simp] lemma Rect.clip_w (a b : Rect) :
    (a.clip b).w = min a.right b.right - max a.left b.left := rfl

@[simp] lemma Rect.clip_h (a b : Rect) :
    (a.clip b).h = min a.bottom b.bottom - max a.top b.top := rfl

def c7p1 : Fighter := mkFighter 100 1

def c7p2 : Fighter :=
  { mkFighter 100 (-1) with rect := ⟨100, 258, 56, 98⟩, on_ground := false, vy := 18 }

/-- C7 counterexample.  A falling fighter landing on top of a grounded
one produces an overlap that is wider than tall, and the push-apart
(which only handles overlaps narrower than tall) leaves the two
rectangles still overlapping at the end of the tick, after both
fighters' update calls. -/
theorem overlap_survives_tick :
    ((update_both c7p1 c7p2 noInputs noInputs gameBounds).1.rect.colliderect
      (update_both c7p1 c7p2 noInputs noInputs gameBounds).2.rect) = true := by
  with_unfolding_all decide

/-- C7 amended.  When the two rectangles overlap and the overlap is
strictly narrower than tall, the push-apart moves each fighter
horizontally by half the overlap width plus one unit, away from the
other's center, and the resulting rectangles no longer overlap (for the
equal-width rectangles the game uses); when the overlap is at least as
wide as tall, `update` applies no correction at all and the overlap can
survive the tick. -/
theorem push_apart_resolution (f opp : Fighter) (hw : f.rect.w = opp.rect.w)
    (hcol : f.rect.colliderect opp.rect = true) :
    ((f.rect.clip opp.rect).w < (f.rect.clip opp.rect).h →
      (push_apart f opp).1.rect.colliderect (push_apart f opp).2.rect = false ∧
      ((f.rect.centerx < opp.rect.centerx →
        (push_apart f opp).1.rect.x = f.rect.x - ((f.rect.clip opp.rect).w / 2 + 1) ∧
        (push_apart f opp).2.rect.x = opp.rect.x + ((f.rect.clip opp.rect).w / 2 + 1)) ∧
       (¬ f.rect.centerx < opp.rect.centerx →
        (push_apart f opp).1.rect.x = f.rect.x + ((f.rect.clip opp.rect).w / 2 + 1) ∧
        (push_apart f opp).2.rect.x = opp.rect.x - ((f.rect.clip opp.rect).w / 2 + 1)))) ∧
    (¬ (f.rect.clip opp.rect).w < (f.rect.clip opp.rect).h →
      push_apart f opp = (f, opp)) := by
  obtain ⟨h1, h2, h3, h4⟩ := Rect.colliderect_iff.mp hcol
  constructor
  · intro hn
    unfold push_apart
    rw [if_pos hcol]
    dsimp only
    rw [if_pos hn]
    by_cases hc : f.rect.centerx < opp.rect.centerx
    · rw [if_pos hc]
      refine ⟨?_, fun _ => ⟨rfl, rfl⟩, fun hcon => absurd hc hcon⟩
      rw [Rect.colliderect_eq_false_iff]
      rintro ⟨a1, a2, a3, a4⟩
      simp only [Rect.left, Rect.right, Rect.top, Rect.bottom, Rect.centerx,
        Rect.clip_w, Rect.clip_h] at *
      omega
    · rw [if_neg hc]
      refine ⟨?_, fun hcon => absurd hcon hc, fun _ => ⟨rfl, rfl⟩⟩
      rw [Rect.colliderect_eq_false_iff]
      rintro ⟨a1, a2, a3, a4⟩
      simp only [Rect.left, Rect.right, Rect.top, Rect.bottom, Rect.centerx,
        Rect.clip_w, Rect.clip_h] at *
      omega
  · intro hn
    unfold push_apart
    rw [if_pos hcol]
    dsimp only
    rw [if_neg hn]

def c7wOpp : Fighter := { mkFighter 130 (-1) with rect := ⟨130, 372, 56, 98⟩ }

/-- Witness for C7's amended theorem on two grounded fighters whose
bodies overlap by 26 horizontal pixels. -/
theorem push_apart_resolution_witness :
    (c7p1.rect.w = c7wOpp.rect.w ∧ c7p1.rect.colliderect c7wOpp.rect = true ∧
      (c7p1.rect.clip c7wOpp.rect).w < (c7p1.rect.clip c7wOpp.rect).h) ∧
      (push_apart c7p1 c7wOpp).1.rect.colliderect (push_apart c7p1 c7wOpp).2.rect = false :=
  ⟨⟨by decide, by decide, by decide⟩,
   ((push_apart_resolution c7p1 c7wOpp (by decide) (by decide)).1 (by decide)).1⟩

/-! ## Claim C8: timeout resolution and exact ties -/

/-- C8.  When a combat tick drives the round clock to or below zero
while both fighters still have positive health: on an exact health tie
neither `rounds_won` changes, both fighters' health is reset, and a
fresh round begins (`round_time` and `freeze_timer` reset, no match
end); otherwise the fighter with the higher health gains exactly one
round point while the other's total is unchanged. -/
theorem timeout_resolution (g : Game) (dt : ℚ)
    (htime : g.round_time - dt ≤ 0) (h1 : 0 < g.p1.hp) (h2 : 0 < g.p2.hp)
    (hm1 : 0 < g.p1.max_hp) (hm2 : 0 < g.p2.max_hp)
    (hw1 : g.p1.rounds_won < 2) (hw2 : g.p2.rounds_won < 2) :
    (g.p1.hp = g.p2.hp →
      (g.resolve_round_end dt).p1.rounds_won = g.p1.rounds_won ∧
      (g.resolve_round_end dt).p2.rounds_won = g.p2.rounds_won ∧
      (g.resolve_round_end dt).p1.hp = (g.p1.max_hp : ℚ) ∧
      (g.resolve_round_end dt).p2.hp = (g.p2.max_hp : ℚ) ∧
      (g.resolve_round_end dt).round_time = ROUND_TIME ∧
      (g.resolve_round_end dt).freeze_timer = 60 ∧
      (g.resolve_round_end dt).match_end = false) ∧
    (g.p2.hp < g.p1.hp →
      (g.resolve_round_end dt).p1.rounds_won = g.p1.rounds_won + 1 ∧
      (g.resolve_round_end dt).p2.rounds_won = g.p2.rounds_won) ∧
    (g.p1.hp < g.p2.hp →
      (g.resolve_round_end dt).p2.rounds_won = g.p2.rounds_won + 1 ∧
      (g.resolve_round_end dt).p1.rounds_won = g.p1.rounds_won) := by
  have hneed2 : BEST_OF / 2 + 1 = 2 := by norm_num [BEST_OF]
  have hk1 : ¬ ((g.p1.max_hp : ℚ) ≤ 0) := not_le.mpr (by exact_mod_cast hm1)
  have hk2 : ¬ ((g.p2.max_hp : ℚ) ≤ 0) := not_le.mpr (by exact_mod_cast hm2)
  have hko1 : ¬ (g.p1.hp ≤ 0) := not_le.mpr h1
  have hko2 : ¬ (g.p2.hp ≤ 0) := not_le.mpr h2
  refine ⟨fun heq => ?_, fun hgt => ?_, fun hlt => ?_⟩
  · have hA : ¬ (g.p1.hp > g.p2.hp) := by rw [heq]; exact lt_irrefl _
    have hB : ¬ (g.p2.hp > g.p1.hp) := by rw [heq]; exact lt_irrefl _
    have hth : ¬ (g.p1.rounds_won ≥ BEST_OF / 2 + 1 ∨ g.p2.rounds_won ≥ BEST_OF / 2 + 1) := by
      rw [hneed2]; omega
    unfold Game.resolve_round_end Game.round_over
    dsimp only
    rw [if_pos htime, if_neg hA, if_neg hB, if_neg hth]
    dsimp only
    rw [if_neg hk1, if_neg hk2]
    exact ⟨rfl, rfl, rfl, rfl, rfl, rfl, rfl⟩
  · have hA : g.p1.hp > g.p2.hp := hgt
    unfold Game.resolve_round_end Game.round_over
    dsimp only
    rw [if_pos htime, if_pos hA]
    by_cases hend : g.p1.rounds_won + 1 ≥ BEST_OF / 2 + 1 ∨ g.p2.rounds_won ≥ BEST_OF / 2 + 1
    · rw [if_pos hend]
      dsimp only
      rw [if_neg hko1, if_neg hko2]
      exact ⟨rfl, rfl⟩
    · rw [if_neg hend]
      dsimp only
      rw [if_neg hk1, if_neg hk2]
      exact ⟨rfl, rfl⟩
  · have hB : ¬ (g.p1.hp > g.p2.hp) := asymm hlt
    have hC : g.p2.hp > g.p1.hp := hlt
    unfold Game.resolve_round_end Game.round_over
    dsimp only
    rw [if_pos htime, if_neg hB, if_pos hC]
    by_cases hend : g.p1.rounds_won ≥ BEST_OF / 2 + 1 ∨ g.p2.rounds_won + 1 ≥ BEST_OF / 2 + 1
    · rw [if_pos hend]
      dsimp only
      rw [if_neg hko1, if_neg hko2]
      exact ⟨rfl, rfl⟩
    · rw [if_neg hend]
      dsimp only
      rw [if_neg hk1, if_neg hk2]
      exact ⟨rfl, rfl⟩

def c8Game : Game :=
  { p1 := mkFighter 200 1, p2 := mkFighter 744 (-1), round_time := 1/2,
    freeze_timer := 0, match_end := false }

/-- Witness for C8 on an exact 100-100 tie at clock expiry. -/
theorem timeout_resolution_witness :
    (c8Game.round_time - 1 ≤ 0 ∧ 0 < c8Game.p1.hp ∧ c8Game.p1.hp = c8Game.p2.hp) ∧
      ((c8Game.resolve_round_end 1).p1.rounds_won = c8Game.p1.rounds_won ∧
        (c8Game.resolve_round_end 1).p2.rounds_won = c8Game.p2.rounds_won ∧
        (c8Game.resolve_round_end 1).p1.hp = (c8Game.p1.max_hp : ℚ) ∧
        (c8Game.resolve_round_end 1).p2.hp = (c8Game.p2.max_hp : ℚ) ∧
        (c8Game.resolve_round_end 1).round_time = ROUND_TIME ∧
        (c8Game.resolve_round_end 1).freeze_timer = 60 ∧
        (c8Game.resolve_round_end 1).match_end = false) :=
  ⟨⟨by with_unfolding_all decide, by with_unfolding_all decide, rfl⟩,
   (timeout_resolution c8Game 1 (by with_unfolding_all decide)
      (by with_unfolding_all decide) (by with_unfolding_all decide)
      (by decide) (by decide) (by decide) (by decide)).1 rfl⟩

/-! ## Claim C9: per-round fighter reset (corrected) -/

def c9Fighter : Fighter :=
  { mkFighter 200 1 with hitstop := 3, attack_cooldown := 5, attack_timer := 7, hit_this_attack := true }

def c9Game : Game :=
  { p1 := c9Fighter, p2 := mkFighter 744 (-1), round_time := 10, freeze_timer := 0, match_end := false }

/-- C9 counterexample.  A round reset that does not end the match
leaves `hitstop`, `attack_cooldown`, `attack_timer` and
`hit_this_attack` untouched: the attack state is not entirely
cleared. -/
theorem round_reset_keeps_hitstop :
    (c9Game.round_over (some Player.p2)).match_end = false ∧
      (c9Game.round_over (some Player.p2)).p1.hitstop = 3 ∧
      (c9Game.round_over (some Player.p2)).p1.attack_cooldown = 5 ∧
      (c9Game.round_over (some Player.p2)).p1.attack_timer = 7 ∧
      (c9Game.round_over (some Player.p2)).p1.hit_this_attack = true := by
  with_unfolding_all decide

/-- C9 amended.  A round resolution that does not end the match resets
health to the maximum, position and velocity to their fixed start
values, and clears `attack_type`, while retaining `rounds_won` (plus
the winner's increment) — but of the attack state only `attack_type`
is cleared: `attack_timer`, `attack_cooldown`, `hitstop` and
`hit_this_attack` keep their values across the reset. -/
theorem round_reset_fields (g : Game) (w : Option Player)
    (hend : (g.round_over w).match_end = false) :
    (g.round_over w).p1.hp = (g.p1.max_hp : ℚ) ∧
    (g.round_over w).p2.hp = (g.p2.max_hp : ℚ) ∧
    (g.round_over w).p1.rect.x = 200 ∧
    (g.round_over w).p1.rect.y = GROUND_Y - g.p1.rect.h ∧
    (g.round_over w).p2.rect.x = (WIDTH - 200) - g.p2.rect.w ∧
    (g.round_over w).p2.rect.y = GROUND_Y - g.p2.rect.h ∧
    (g.round_over w).p1.vx = 0 ∧ (g.round_over w).p1.vy = 0 ∧
    (g.round_over w).p2.vx = 0 ∧ (g.round_over w).p2.vy = 0 ∧
    (g.round_over w).p1.attack_type = none ∧ (g.round_over w).p2.attack_type = none ∧
    (g.round_over w).round_time = ROUND_TIME ∧ (g.round_over w).freeze_timer = 60 ∧
    (g.round_over w).p1.attack_timer = g.p1.attack_timer ∧
    (g.round_over w).p1.attack_cooldown = g.p1.attack_cooldown ∧
    (g.round_over w).p1.hitstop = g.p1.hitstop ∧
    (g.round_over w).p1.hit_this_attack = g.p1.hit_this_attack ∧
    (g.round_over w).p2.attack_timer = g.p2.attack_timer ∧
    (g.round_over w).p2.attack_cooldown = g.p2.attack_cooldown ∧
    (g.round_over w).p2.hitstop = g.p2.hitstop ∧
    (g.round_over w).p2.hit_this_attack = g.p2.hit_this_attack ∧
    (w = some Player.p1 →
      (g.round_over w).p1.rounds_won = g.p1.rounds_won + 1 ∧
      (g.round_over w).p2.rounds_won = g.p2.rounds_won) ∧
    (w = some Player.p2 →
      (g.round_over w).p2.rounds_won = g.p2.rounds_won + 1 ∧
      (g.round_over w).p1.rounds_won = g.p1.rounds_won) ∧
    (w = none →
      (g.round_over w).p1.rounds_won = g.p1.rounds_won ∧
      (g.round_over w).p2.rounds_won = g.p2.rounds_won) := by
  cases w with
  | none =>
    unfold Game.round_over at hend ⊢
    dsimp only at hend ⊢
    split at hend
    · simp at hend
    · rename_i hcond
      rw [if_neg hcond]
      simp
  | some p =>
    cases p with
    | p1 =>
      unfold Game.round_over at hend ⊢
      dsimp only at hend ⊢
      split at hend
      · simp at hend
      · rename_i hcond
        rw [if_neg hcond]
        simp
    | p2 =>
      unfold Game.round_over at hend ⊢
      dsimp only at hend ⊢
      split at hend
      · simp at hend
      · rename_i hcond
        rw [if_neg hcond]
        simp

/-- Witness for C9's amended theorem. -/
theorem round_reset_fields_witness :
    (c9Game.round_over (some Player.p2)).match_end = false ∧
      (c9Game.round_over (some Player.p2)).p1.hp = (c9Game.p1.max_hp : ℚ) :=
  ⟨by with_unfolding_all decide,
   (round_reset_fields c9Game (some Player.p2) (by with_unfolding_all decide)).1⟩

/-! ## Claim C10: simultaneous double KO awards the round to player 2 -/

/-- C10.  If, at the controller's KO check, both fighters' health are
at or below zero in the same tick (and the clock has not expired),
player 1's KO is tested first and the two branches are mutually
exclusive (`elif`), so the round is awarded to player 2 only: player
2's `rounds_won` is incremented and player 1's is unchanged. -/
theorem double_ko_awards_p2 (g : Game) (dt : ℚ)
    (ht : 0 < g.round_time - dt) (h1 : g.p1.hp ≤ 0) (h2 : g.p2.hp ≤ 0) :
    (g.resolve_round_end dt).p2.rounds_won = g.p2.rounds_won + 1 ∧
      (g.resolve_round_end dt).p1.rounds_won = g.p1.rounds_won := by
  unfold Game.resolve_round_end
  dsimp only
  rw [if_neg (not_le.mpr ht), if_pos h1]
  unfold Game.round_over
  dsimp only
  split
  · exact ⟨rfl, rfl⟩
  · exact ⟨rfl, rfl⟩

def koFighter1 : Fighter := { mkFighter 200 1 with hp := 0 }

def koFighter2 : Fighter := { mkFighter 744 (-1) with hp := 0 }

def c10Game : Game :=
  { p1 := koFighter1, p2 := koFighter2, round_time := 10, freeze_timer := 0, match_end := false }

/-- Witness for C10 on a concrete simultaneous double KO. -/
theorem double_ko_awards_p2_witness :
    (0 < c10Game.round_time - 1 ∧ c10Game.p1.hp ≤ 0 ∧ c10Game.p2.hp ≤ 0) ∧
      ((c10Game.resolve_round_end 1).p2.rounds_won = c10Game.p2.rounds_won + 1 ∧
        (c10Game.resolve_round_end 1).p1.rounds_won = c10Game.p1.rounds_won) :=
  ⟨⟨by with_unfolding_all decide, by with_unfolding_all decide,
    by with_unfolding_all decide⟩,
   double_ko_awards_p2 c10Game 1 (by with_unfolding_all decide)
     (by with_unfolding_all decide) (by with_unfolding_all decide)⟩

end TekkenLite
